import Mathlib

/-!
Shallow embedding of the gunpla shop backend (FastAPI + SQLAlchemy) and proofs
about its cart/order/auth/catalog logic.

Conventions of the embedding:
* `uuid.UUID` primary keys are modelled as `Nat`; the `uuid4` default of the
  abstract base model is modelled by a fresh-id counter `next_id` carried in
  the database state (uuid4 values are assumed collision-free).
* `DECIMAL(10,2)` money values are exact decimals; they are modelled as `Int`
  in minor units (multiplication by an integer quantity and addition are the
  only operations performed on them, both exact in Python's `Decimal`).
* `datetime` values are modelled as `Int` timestamps (seconds); mutating
  operations take the current time `now` as an explicit argument.
* A SQLAlchemy session is modelled as an explicit database state `DB`; every
  handler that can raise `HTTPException` returns the state as of the raise
  together with `Except HTTPError response`.  The source raises before any
  `add`/`delete` in all error paths modelled here, so the returned state on an
  error is the input state.
-/

/-- Order statuses, from `app/models/order.py` (`OrderStatusEnum`). -/
inductive OrderStatusEnum where
  | pending
  | confirmed
  | shipped
  | delivered
  | cancelled
deriving DecidableEq, Repr

/-- Product grades, from `app/models/product.py` (`GradeEnum`). -/
inductive GradeEnum where
  | HG | RG | MG | MR_VER_KA | MGEX | PG
deriving DecidableEq, Repr

/-- Model of `uuid.UUID` primary keys. -/
abbrev Uuid := Nat

/-- Model of `DECIMAL(10,2)` (exact decimal arithmetic, in minor units). -/
abbrev Money := Int

/-- Row `Product` of `app/models/product.py` (catalog table `products`). -/
structure Product where
  id : Uuid
  name : String
  description : Option String := none
  price : Money
  grade : GradeEnum := GradeEnum.HG
  manufacturer : String := ""
  series : Option String := none
  scale : Option String := none
  difficulty : Option Nat := none
  in_stock : Nat := 0
  main_image : Option String := none
  average_rating : Money := 0
  total_reviews : Nat := 0
  created_at : Int := 0
  updated_at : Int := 0
deriving DecidableEq, Repr

/-- Row `Cart` of `app/models/order.py` (table `cart`). -/
structure CartRow where
  id : Uuid
  user_id : Uuid
  product_id : Uuid
  quantity : Nat
  created_at : Int := 0
  updated_at : Int := 0
deriving DecidableEq, Repr

/-- Row `Order` of `app/models/order.py` (table `orders`). -/
structure OrderRow where
  id : Uuid
  user_id : Uuid
  total_amount : Money
  status : OrderStatusEnum
  payment_method : Option String := none
  payment_id : Option String := none
  delivery_address : String
  estimated_delivery : Option Int := none
  created_at : Int := 0
  updated_at : Int := 0
deriving DecidableEq, Repr

/-- Row `OrderItem` of `app/models/order.py` (table `order_items`). -/
structure OrderItemRow where
  id : Uuid
  order_id : Uuid
  product_id : Uuid
  quantity : Nat
  price : Money
  created_at : Int := 0
  updated_at : Int := 0
deriving DecidableEq, Repr

/-- Row `User` of `app/models/user.py` (table `users`). -/
structure UserRow where
  id : Uuid
  email : String
  username : String
  password_hash : String
  full_name : Option String := none
  is_admin : Bool := false
  is_active : Bool := true
deriving DecidableEq, Repr

/-- The database state observed by the services. -/
structure DB where
  products : List Product
  cart : List CartRow
  orders : List OrderRow
  order_items : List OrderItemRow
  users : List UserRow := []
  /-- fresh-id source modelling the `uuid4` column default -/
  next_id : Uuid
deriving DecidableEq, Repr

/-- Model of `fastapi.HTTPException` carrying a status code and a detail message. -/
structure HTTPError where
  status_code : Nat
  detail : String
deriving DecidableEq, Repr

/-- Query `self.db.query(Product).filter(Product.id == product_id).first()`. -/
def findProduct (db : DB) (pid : Uuid) : Option Product :=
  db.products.find? (fun p => p.id == pid)

/-- Query `self.db.query(Cart).filter(Cart.user_id == user_id).all()`. -/
def userCartRows (db : DB) (uid : Uuid) : List CartRow :=
  db.cart.filter (fun c => c.user_id == uid)

/-- The catalog price of a product at the current state (0 if absent; only
used under an existence hypothesis or after a `findProduct` match). -/
def catalogPrice (db : DB) (pid : Uuid) : Money :=
  ((findProduct db pid).map Product.price).getD 0

/-- Schema `CartItemResponse`. -/
structure CartItemResponse where
  id : Uuid
  user_id : Uuid
  product_id : Uuid
  quantity : Nat
  product_name : Option String := none
  product_price : Option Money := none
  total_price : Option Money := none
  created_at : Int := 0
  updated_at : Int := 0
deriving DecidableEq, Repr

/-- Schema `CartResponse`. -/
structure CartResponse where
  items : List CartItemResponse
  total_items : Nat
  total_amount : Money
deriving DecidableEq, Repr

/-- The accumulation loop of `OrderService.get_user_cart`: lines whose product
lookup fails are skipped; lines with an existing product contribute the
response item, the quantity and `price * quantity`. -/
def cartAgg (db : DB) : List CartRow → List CartItemResponse × Nat × Money
  | [] => ([], 0, 0)
  | c :: rest =>
    let acc := cartAgg db rest
    match findProduct db c.product_id with
    | some p =>
        ({ id := c.id, user_id := c.user_id, product_id := c.product_id,
           quantity := c.quantity, product_name := some p.name,
           product_price := some p.price,
           total_price := some (p.price * (c.quantity : Int)),
           created_at := c.created_at, updated_at := c.updated_at } :: acc.1,
         c.quantity + acc.2.1,
         p.price * (c.quantity : Int) + acc.2.2)
    | none => acc

/-- Method `OrderService.get_user_cart`. -/
def get_user_cart (db : DB) (uid : Uuid) : CartResponse :=
  let cart_items := userCartRows db uid
  if cart_items.isEmpty then
    { items := [], total_items := 0, total_amount := 0 }
  else
    let acc := cartAgg db cart_items
    { items := acc.1, total_items := acc.2.1, total_amount := acc.2.2 }

/-- Schema `CartItemCreate` (`quantity ≥ 1` enforced by the
schema; the bound is irrelevant to the claims proved here). -/
structure CartItemCreate where
  product_id : Uuid
  quantity : Nat := 1
deriving DecidableEq, Repr

/-- Method `OrderService.add_to_cart`: requires the product to exist (404 otherwise);
increments the quantity of an existing (user, product) line, else inserts a
new line with the given quantity. -/
def add_to_cart (db : DB) (now : Int) (uid : Uuid) (cart_item : CartItemCreate) :
    DB × Except HTTPError CartItemResponse :=
  match findProduct db cart_item.product_id with
  | none =>
      (db, .error { status_code := 404,
                    detail := "Товар с ID " ++ toString cart_item.product_id ++ " не найден" })
  | some product =>
    match db.cart.find? (fun c => c.user_id == uid && c.product_id == cart_item.product_id) with
    | some existing_item =>
        let updated : CartRow :=
          { existing_item with quantity := existing_item.quantity + cart_item.quantity,
                               updated_at := now }
        let db' := { db with
          cart := db.cart.map (fun c => if c.id == existing_item.id then updated else c) }
        (db', .ok { id := updated.id, user_id := updated.user_id,
                    product_id := updated.product_id, quantity := updated.quantity,
                    product_name := some product.name, product_price := some product.price,
                    total_price := some (product.price * (updated.quantity : Int)),
                    created_at := updated.created_at, updated_at := updated.updated_at })
    | none =>
        let new_cart_item : CartRow :=
          { id := db.next_id, user_id := uid, product_id := cart_item.product_id,
            quantity := cart_item.quantity, created_at := now, updated_at := now }
        let db' := { db with cart := db.cart ++ [new_cart_item], next_id := db.next_id + 1 }
        (db', .ok { id := new_cart_item.id, user_id := new_cart_item.user_id,
                    product_id := new_cart_item.product_id,
                    quantity := new_cart_item.quantity,
                    product_name := some product.name, product_price := some product.price,
                    total_price := some (product.price * (new_cart_item.quantity : Int)),
                    created_at := new_cart_item.created_at,
                    updated_at := new_cart_item.updated_at })

/-- Schema `OrderCreate`. -/
structure OrderCreate where
  delivery_address : String
  payment_method : Option String := none
deriving DecidableEq, Repr

/-- The in-memory per-line data collected by the pricing pass of
`OrderService.create_order_from_cart` (`order_items_data`). -/
structure OrderItemData where
  product_id : Uuid
  quantity : Nat
  price : Money
deriving DecidableEq, Repr

/-- Schema `OrderItemResponse`. -/
structure OrderItemResponse where
  id : Uuid
  order_id : Uuid
  product_id : Uuid
  quantity : Nat
  price : Money
  product_name : Option String := none
  created_at : Int := 0
  updated_at : Int := 0
deriving DecidableEq, Repr

/-- Schema `OrderResponse`. -/
structure OrderResponse where
  id : Uuid
  user_id : Uuid
  total_amount : Money
  status : OrderStatusEnum
  payment_method : Option String := none
  payment_id : Option String := none
  delivery_address : String
  estimated_delivery : Option Int := none
  items : List OrderItemResponse
  created_at : Int := 0
  updated_at : Int := 0
deriving DecidableEq, Repr

/-- The pricing pass of `OrderService.create_order_from_cart`: re-resolves the
current catalog price of every cart line, raising 404 on the first line whose
product does not exist, and accumulates the order total. -/
def collectOrderItems (db : DB) : List CartRow → Except HTTPError (Money × List OrderItemData)
  | [] => .ok (0, [])
  | c :: rest =>
    match findProduct db c.product_id with
    | none => .error { status_code := 404,
                       detail := "Товар с ID " ++ toString c.product_id ++ " не найден" }
    | some p => do
        let acc ← collectOrderItems db rest
        .ok (p.price * (c.quantity : Int) + acc.1,
             { product_id := c.product_id, quantity := c.quantity, price := p.price } :: acc.2)

/-- Materialise the collected line data as `OrderItem` rows, drawing one fresh
id per row (column default `uuid4`). -/
def numberOrderItems (startId : Uuid) (now : Int) (oid : Uuid) :
    List OrderItemData → List OrderItemRow
  | [] => []
  | d :: rest =>
      { id := startId, order_id := oid, product_id := d.product_id,
        quantity := d.quantity, price := d.price,
        created_at := now, updated_at := now }
        :: numberOrderItems (startId + 1) now oid rest

/-- Method `OrderService._build_order_response`. -/
def build_order_response (db : DB) (order : OrderRow) (order_items : List OrderItemRow) :
    OrderResponse :=
  { id := order.id, user_id := order.user_id, total_amount := order.total_amount,
    status := order.status, payment_method := order.payment_method,
    payment_id := order.payment_id, delivery_address := order.delivery_address,
    estimated_delivery := order.estimated_delivery,
    items := order_items.map (fun item =>
      { id := item.id, order_id := item.order_id, product_id := item.product_id,
        quantity := item.quantity, price := item.price,
        product_name := (findProduct db item.product_id).map Product.name,
        created_at := item.created_at, updated_at := item.updated_at }),
    created_at := order.created_at, updated_at := order.updated_at }

/-- Method `OrderService.create_order_from_cart`: 400 on an empty cart; 404 on the
first cart line whose product does not exist (before any write); otherwise
creates the order and its lines with prices frozen now, deletes the user's
cart lines and commits, all in one transaction. -/
def create_order_from_cart (db : DB) (now : Int) (uid : Uuid) (order_data : OrderCreate) :
    DB × Except HTTPError OrderResponse :=
  let cart_items := userCartRows db uid
  if cart_items.isEmpty then
    (db, .error { status_code := 400, detail := "Корзина пуста" })
  else
    match collectOrderItems db cart_items with
    | .error e => (db, .error e)
    | .ok (total_amount, order_items_data) =>
        let new_order : OrderRow :=
          { id := db.next_id, user_id := uid, total_amount := total_amount,
            status := OrderStatusEnum.pending,
            payment_method := order_data.payment_method,
            delivery_address := order_data.delivery_address,
            estimated_delivery := some (now + 3 * 86400),
            created_at := now, updated_at := now }
        let order_items := numberOrderItems (db.next_id + 1) now new_order.id order_items_data
        let db' : DB :=
          { db with orders := db.orders ++ [new_order],
                    order_items := db.order_items ++ order_items,
                    cart := db.cart.filter (fun c => !(c.user_id == uid)),
                    next_id := db.next_id + 1 + order_items_data.length }
        (db', .ok (build_order_response db' new_order order_items))

/-- Schema `ProductFilter` (the fields used by
`_apply_filters` and `_apply_sorting`).  `sort_by`/`sort_order` carry the
already validated strings; `none` models a field explicitly set to `None`. -/
structure ProductFilter where
  name : Option String := none
  grade : Option (List GradeEnum) := none
  manufacturer : Option (List String) := none
  series : Option (List String) := none
  min_price : Option Money := none
  max_price : Option Money := none
  min_difficulty : Option Nat := none
  max_difficulty : Option Nat := none
  in_stock_only : Bool := false
  min_rating : Option Money := none
  sort_by : Option String := some "created_at"
  sort_order : Option String := some "desc"
deriving DecidableEq, Repr

/-- Validator `ProductFilter.validate_sort_by`: the explicit allow-list. -/
def validate_sort_by (v : String) : Except String String :=
  if v ∈ ["name", "price", "rating", "created_at", "average_rating", "total_reviews"] then
    .ok v
  else
    .error "sort_by должно быть одним из: name, price, rating, created_at, average_rating, total_reviews"

/-- Validator `ProductFilter.validate_sort_order`. -/
def validate_sort_order (v : String) : Except String String :=
  if v ∈ ["asc", "desc"] then .ok v
  else .error "sort_order должно быть asc или desc"

/-- Case-insensitive substring match, modelling `Product.name.ilike(f"%{s}%")`. -/
def ilikeContains (hay pat : String) : Bool :=
  decide (List.IsInfix pat.toLower.data hay.toLower.data)

/-- One conjunct per `query.filter(...)` of `ProductService._apply_filters`. -/
def matchesFilters (f : ProductFilter) (p : Product) : Bool :=
  (match f.name with | some s => ilikeContains p.name s | none => true) &&
  (match f.grade with | some gs => gs.contains p.grade | none => true) &&
  (match f.manufacturer with | some ms => ms.contains p.manufacturer | none => true) &&
  (match f.series with
   | some ss => match p.series with | some s => ss.contains s | none => false
   | none => true) &&
  (match f.min_price with | some m => m ≤ p.price | none => true) &&
  (match f.max_price with | some m => p.price ≤ m | none => true) &&
  (match f.min_difficulty with
   | some m => match p.difficulty with | some d => m ≤ d | none => false
   | none => true) &&
  (match f.max_difficulty with
   | some m => match p.difficulty with | some d => d ≤ m | none => false
   | none => true) &&
  (!f.in_stock_only || 0 < p.in_stock) &&
  (match f.min_rating with | some m => m ≤ p.average_rating | none => true)

/-- Method `ProductService._apply_filters`. -/
def apply_filters (ps : List Product) (f : ProductFilter) : List Product :=
  ps.filter (matchesFilters f)

/-- The columns of the `Product` model reachable by
`getattr(Product, sort_by, None)` for the allow-listed sort keys.  The model
has no attribute named `rating`, so `"rating"` yields `none`. -/
def productSortColumn (sort_by : String) : Option (Product → Product → Bool × Bool) :=
  let cmpInt : (Product → Int) → Product → Product → Bool × Bool :=
    fun f a b => (f a ≤ f b, f b ≤ f a)
  let cmpNat : (Product → Nat) → Product → Product → Bool × Bool :=
    fun f a b => (f a ≤ f b, f b ≤ f a)
  match sort_by with
  | "name" => some (fun a b => (a.name ≤ b.name, b.name ≤ a.name))
  | "price" => some (cmpInt Product.price)
  | "average_rating" => some (cmpInt Product.average_rating)
  | "total_reviews" => some (cmpNat Product.total_reviews)
  | "created_at" => some (cmpInt Product.created_at)
  | _ => none

/-- Stable insertion of one element into an already ordered list. -/
def orderByInsert (le : α → α → Bool) (x : α) : List α → List α
  | [] => [x]
  | y :: ys => if le x y then x :: y :: ys else y :: orderByInsert le x ys

/-- A deterministic stable sort modelling SQL `ORDER BY`. -/
def orderBy (le : α → α → Bool) : List α → List α
  | [] => []
  | x :: xs => orderByInsert le x (orderBy le xs)

/-- Method `ProductService._apply_sorting`: a key that is not an attribute of the
`Product` model falls back to `created_at`; `"asc"` sorts ascending, anything
else descending (`ORDER BY` modelled as a stable sort). -/
def apply_sorting (ps : List Product) (sort_by : String) (sort_order : String) :
    List Product :=
  let cmp := (productSortColumn sort_by).getD
    (fun a b => (a.created_at ≤ b.created_at, b.created_at ≤ a.created_at))
  if sort_order == "asc" then
    orderBy (fun a b => (cmp a b).1) ps
  else
    orderBy (fun a b => (cmp a b).2) ps

/-- Schema `ProductListResponse` (the pagination metadata;
the per-product payload is kept as the catalog row). -/
structure ProductListResponse where
  items : List Product
  total : Nat
  page : Nat
  size : Nat
  pages : Nat
  has_next : Bool
  has_prev : Bool
deriving DecidableEq, Repr

/-- The filtered query built by `ProductService.get_products` before sorting
and pagination are applied. -/
def filteredProducts (db : DB) (filters : Option ProductFilter) : List Product :=
  match filters with
  | some f => apply_filters db.products f
  | none => db.products

/-- Method `ProductService.get_products`: filter, count, sort, then paginate with
`offset = (page - 1) * size` and `limit = size`; `pages = math.ceil(total /
size)` when `size > 0` else `0`; `has_next = page < pages`;
`has_prev = page > 1`. -/
def get_products (db : DB) (filters : Option ProductFilter) (page : Nat) (size : Nat) :
    ProductListResponse :=
  let q := filteredProducts db filters
  let total := q.length
  let sorted := match filters with
    | some f =>
        match f.sort_by with
        | some sb => apply_sorting q sb (f.sort_order.getD "desc")
        | none => apply_sorting q "created_at" "desc"
    | none => apply_sorting q "created_at" "desc"
  let items := (sorted.drop ((page - 1) * size)).take size
  let pages := if 0 < size then (total + size - 1) / size else 0
  { items := items, total := total, page := page, size := size, pages := pages,
    has_next := decide (page < pages), has_prev := decide (1 < page) }

/-! ### Authentication (`app/services/auth_service.py`, `app/api/auth.py`) -/

/-- Python exceptions surfacing from the registration endpoint. -/
inductive PyExc where
  | httpExc (e : HTTPError)
  | nameErr (msg : String)
  | typeErr (msg : String)
deriving DecidableEq, Repr

/-- Method `AuthService.get_password_hash` (argon2 hash; modelled as an injective
tagging — only used opaquely here). -/
def get_password_hash (password : String) : String :=
  "argon2$" ++ password

/-- Method `AuthService.get_user_by_email`.  Its query expression references the
name `func` (`func.lower(User.email)`), but `app/services/auth_service.py`
only imports `select` from sqlalchemy, so evaluating the body raises
`NameError: name 'func' is not defined` before any row is read.  The intended
case-insensitive lookup is dead code. -/
def get_user_by_email (users : List UserRow) (email : String) :
    Except PyExc (Option UserRow) :=
  .error (.nameErr "name 'func' is not defined")

/-- Method `AuthService.get_user_by_username`. -/
def get_user_by_username (users : List UserRow) (username : String) : Option UserRow :=
  users.find? (fun u => u.username == username)

/-- Schema `UserCreateSchemas` (the fields read by the
registration endpoint). -/
structure UserCreateSchemas where
  email : String
  username : String
  password : String
  full_name : Option String := none
deriving DecidableEq, Repr

/-- Endpoint `register_user` from `app/api/auth.py`.  The `try` body checks the email
(raising `NameError`, see `get_user_by_email`), then the username, then
creates the user.  The `except` block evaluates
`isinstance(e, (AuthException.USER_ALREADY_EXISTS, AuthException.USERNAME_TAKEN))`
whose second argument is a tuple of `HTTPException` *instances*, not types, so
the check itself raises `TypeError` for every exception reaching it; FastAPI
turns that uncaught `TypeError` into a plain 500 response. -/
def register_user (users : List UserRow) (next_id : Uuid) (user : UserCreateSchemas) :
    List UserRow × Except PyExc UserRow :=
  let tryResult : List UserRow × Except PyExc UserRow :=
    match get_user_by_email users user.email with
    | .error e => (users, .error e)
    | .ok (some _) =>
        (users, .error (.httpExc { status_code := 400,
                                   detail := "Пользователь с таким email уже существует" }))
    | .ok none =>
      match get_user_by_username users user.username with
      | some _ =>
          (users, .error (.httpExc { status_code := 400,
                                     detail := "Имя пользователя уже занято" }))
      | none =>
          let db_user : UserRow :=
            { id := next_id, email := user.email, username := user.username,
              password_hash := get_password_hash user.password,
              full_name := user.full_name, is_admin := false, is_active := true }
          (users ++ [db_user], .ok db_user)
  match tryResult with
  | (us, .ok u) => (us, .ok u)
  | (us, .error _) =>
      (us, .error (.typeErr "isinstance() arg 2 must be a type or tuple of types"))

/-- The HTTP status the client observes for a registration outcome (FastAPI
maps an uncaught non-HTTP exception to a 500 response). -/
def registrationStatus (r : Except PyExc UserRow) : Nat :=
  match r with
  | .ok _ => 201
  | .error (.httpExc e) => e.status_code
  | .error (.nameErr _) => 500
  | .error (.typeErr _) => 500

/-! ### JWT issue / verify (`JWTManager`) -/

/-- Settings record of `app/config.py` (the fields used by `JWTManager`). -/
structure Settings where
  SECRET_KEY : String
  ALGORITHM : String := "HS256"
  ACCESS_TOKEN_EXPIRE_MINUTES : Nat := 30
deriving DecidableEq, Repr

/-- One character of the decimal rendering used by the model of
`str(uuid.UUID)`. -/
def uuidChar (d : Nat) : Char := Char.ofNat (48 + d)

/-- Model of `str(user_id)` for a `uuid.UUID`: a canonical, non-empty string
determined by the id ("u" followed by the decimal digits, mirroring the fixed
36-character format which is non-empty even for the nil UUID). -/
def uuidStr (u : Uuid) : String :=
  String.mk ('u' :: (Nat.digits 10 u).map uuidChar)

/-- Character-level worker of `uuidParse`. -/
def uuidParseChars : List Char → Option Uuid
  | [] => none
  | c :: rest =>
      if c = 'u' ∧ rest.all (fun ch => 48 ≤ ch.toNat ∧ ch.toNat ≤ 57) then
        some (Nat.ofDigits 10 (rest.map (fun ch => ch.toNat - 48)))
      else none

/-- Model of `uuid.UUID(s)`: recovers the id from its canonical string, and
fails (Python `ValueError`) on any other string. -/
def uuidParse (s : String) : Option Uuid :=
  uuidParseChars s.data

/-- The JWT claim set built by `JWTManager.create_access_token`. -/
structure JwtPayload where
  sub : String
  email : String
  exp : Int
  iat : Int
deriving DecidableEq, Repr

/-- A signed token: the payload plus the key and algorithm that produced the
signature (an HMAC signature is determined by, and only verifiable with,
these). -/
structure JwtToken where
  payload : JwtPayload
  sig_key : String
  sig_alg : String
deriving DecidableEq, Repr

/-- The outcomes of `jwt.decode` distinguished by `verify_token`'s handler. -/
inductive JwtError where
  | ExpiredSignatureError
  | InvalidTokenError
deriving DecidableEq, Repr

/-- Model of `jwt.encode(payload, key, algorithm=alg)`. -/
def jwt_encode (payload : JwtPayload) (key : String) (alg : String) : JwtToken :=
  { payload := payload, sig_key := key, sig_alg := alg }

/-- Model of `jwt.decode(token, key, algorithms=algs)` at current time `now`: rejects a
signature not produced with `key` and an allowed algorithm, then rejects an
expired token (PyJWT treats `exp ≤ now` as expired, with zero leeway), else
returns the claims. -/
def jwt_decode (tok : JwtToken) (key : String) (algs : List String) (now : Int) :
    Except JwtError JwtPayload :=
  if tok.sig_key ≠ key ∨ tok.sig_alg ∉ algs then .error .InvalidTokenError
  else if tok.payload.exp ≤ now then .error .ExpiredSignatureError
  else .ok tok.payload

/-- Method `JWTManager.create_access_token` issued at time `now`: expiry is `now +
expires_delta` when a delta is given, else `now` plus the configured default
window (minutes). -/
def create_access_token (s : Settings) (now : Int) (user_id : Uuid) (email : String)
    (expires_delta : Option Int) : JwtToken :=
  let expire := match expires_delta with
    | some d => now + d
    | none => now + 60 * (s.ACCESS_TOKEN_EXPIRE_MINUTES : Int)
  jwt_encode { sub := uuidStr user_id, email := email, exp := expire, iat := now }
    s.SECRET_KEY s.ALGORITHM

/-- Method `JWTManager.verify_token` at current time `now`: any decode failure, a
falsy `sub`/`email` claim (a missing claim — `payload.get` returning `None` —
is modelled by the empty string, falsy like it), or a `sub` that is not a
UUID string (`ValueError`) all yield the same `none`; otherwise returns the
embedded user id and email. -/
def verify_token (s : Settings) (now : Int) (tok : JwtToken) : Option (Uuid × String) :=
  match jwt_decode tok s.SECRET_KEY [s.ALGORITHM] now with
  | .error _ => none
  | .ok payload =>
      if payload.sub == "" || payload.email == "" then none
      else
        match uuidParse payload.sub with
        | none => none
        | some uid => some (uid, payload.email)

/-! ## Supporting lemmas -/

theorem uuidChar_bounds : ∀ d, d < 10 →
    ((48 ≤ (uuidChar d).toNat ∧ (uuidChar d).toNat ≤ 57) ∧ (uuidChar d).toNat - 48 = d) := by
  decide

theorem uuidStr_ne_empty (u : Uuid) : uuidStr u ≠ "" := by
  intro h
  have h' := congrArg String.data h
  simp [uuidStr] at h'

theorem uuidParse_uuidStr (u : Uuid) : uuidParse (uuidStr u) = some u := by
  have hb : ∀ d ∈ Nat.digits 10 u, d < 10 :=
    fun d hd => Nat.digits_lt_base (by norm_num) hd
  show uuidParseChars ('u' :: (Nat.digits 10 u).map uuidChar) = some u
  rw [uuidParseChars]
  rw [if_pos]
  · congr 1
    rw [List.map_map]
    have hmap : (Nat.digits 10 u).map ((fun ch => ch.toNat - 48) ∘ uuidChar) =
        (Nat.digits 10 u).map id := by
      apply List.map_congr_left
      intro d hd
      simpa using (uuidChar_bounds d (hb d hd)).2
    rw [hmap, List.map_id, Nat.ofDigits_digits]
  · refine ⟨rfl, ?_⟩
    rw [List.all_eq_true]
    intro c hc
    obtain ⟨d, hdm, rfl⟩ := List.mem_map.1 hc
    simpa using (uuidChar_bounds d (hb d hdm)).1

/-! ## Claims -/

/-- C7: a token issued by `create_access_token` with expiry window `delta`
verifies at any time strictly before the expiry instant `now + delta`,
returning exactly the embedded user id and email, and fails verification
(the uniform `none`) at any time after the expiry instant.  The email of an
issued token is a validated `EmailStr`, hence non-empty. -/
theorem verify_token_roundtrip (s : Settings) (now tCheck : Int) (user_id : Uuid)
    (email : String) (delta : Int) (hemail : email ≠ "") :
    (tCheck < now + delta →
      verify_token s tCheck (create_access_token s now user_id email (some delta)) =
        some (user_id, email)) ∧
    (now + delta < tCheck →
      verify_token s tCheck (create_access_token s now user_id email (some delta)) =
        none) := by
  constructor <;> intro ht
  · simp only [create_access_token, jwt_encode, verify_token, jwt_decode]
    rw [if_neg (by simp), if_neg (by omega)]
    simp [uuidParse_uuidStr, uuidStr_ne_empty, hemail]
  · simp only [create_access_token, jwt_encode, verify_token, jwt_decode]
    rw [if_neg (by simp), if_pos (by omega)]

/-- Closed instance of `verify_token_roundtrip`. -/
theorem verify_token_roundtrip_witness :
    verify_token ⟨"secret", "HS256", 30⟩ 50
        (create_access_token ⟨"secret", "HS256", 30⟩ 0 5 "a@b.c" (some 100)) =
      some (5, "a@b.c") ∧
    verify_token ⟨"secret", "HS256", 30⟩ 150
        (create_access_token ⟨"secret", "HS256", 30⟩ 0 5 "a@b.c" (some 100)) =
      none :=
  ⟨(verify_token_roundtrip ⟨"secret", "HS256", 30⟩ 0 50 5 "a@b.c" 100 (by decide)).1
      (by norm_num),
   (verify_token_roundtrip ⟨"secret", "HS256", 30⟩ 0 150 5 "a@b.c" 100 (by decide)).2
      (by norm_num)⟩

/-- C2 (code bug): every call to the registration endpoint — in particular a
second registration with an email equal, up to letter case, to a stored
user's — leaves the user table unchanged but fails with an uncaught
`TypeError` (HTTP 500), never with the intended conflict error: the duplicate
check `get_user_by_email` raises `NameError` (`func` is not imported), and
the handler's `isinstance` call on exception instances itself raises
`TypeError`. -/
theorem register_user_always_500 (users : List UserRow) (next_id : Uuid)
    (user : UserCreateSchemas) :
    register_user users next_id user =
      (users, .error (.typeErr "isinstance() arg 2 must be a type or tuple of types")) ∧
    registrationStatus (register_user users next_id user).2 = 500 :=
  ⟨rfl, rfl⟩

/-- Catalog row with the later creation date but the lower average rating. -/
def ratingDemoA : Product :=
  { id := 1, name := "Gundam A", price := 1000, average_rating := 500,
    total_reviews := 3, created_at := 10 }

/-- Catalog row with the earlier creation date but the higher average rating. -/
def ratingDemoB : Product :=
  { id := 2, name := "Gundam B", price := 2000, average_rating := 100,
    total_reviews := 7, created_at := 20 }

/-- C9 (code bug): the sort key `"rating"` passes `validate_sort_by`, but the
`Product` model has no attribute `rating`, so `_apply_sorting` silently falls
back to ordering by `created_at`: on a catalog whose ascending-rating order
is `[B, A]`, the returned order is `[A, B]`, identical to the `created_at`
ordering.  Keys outside the allow-list are rejected, as the last conjunct
shows. -/
theorem sort_by_rating_silently_ignored :
    validate_sort_by "rating" = .ok "rating" ∧
    productSortColumn "rating" = none ∧
    apply_sorting [ratingDemoA, ratingDemoB] "rating" "asc" =
      [ratingDemoA, ratingDemoB] ∧
    apply_sorting [ratingDemoA, ratingDemoB] "rating" "asc" =
      apply_sorting [ratingDemoA, ratingDemoB] "created_at" "asc" ∧
    orderBy (fun a b => decide (a.average_rating ≤ b.average_rating))
        [ratingDemoA, ratingDemoB] = [ratingDemoB, ratingDemoA] ∧
    validate_sort_by "grade" =
      .error "sort_by должно быть одним из: name, price, rating, created_at, average_rating, total_reviews" :=
  ⟨rfl, rfl, rfl, rfl, rfl, rfl⟩

theorem length_orderByInsert (le : α → α → Bool) (x : α) (l : List α) :
    (orderByInsert le x l).length = l.length + 1 := by
  induction l with
  | nil => rfl
  | cons y ys ih => by_cases h : le x y <;> simp [orderByInsert, h, ih]

theorem length_orderBy (le : α → α → Bool) (l : List α) :
    (orderBy le l).length = l.length := by
  induction l with
  | nil => rfl
  | cons x xs ih => simp [orderBy, length_orderByInsert, ih]

theorem length_apply_sorting (ps : List Product) (sb so : String) :
    (apply_sorting ps sb so).length = ps.length := by
  unfold apply_sorting
  by_cases h : so == "asc" <;> simp [h, length_orderBy]

/-- C8: for every listing request with `page ≥ 1` and `size > 0`, the response
reports the total matching count, `pages = ⌈total / size⌉`,
`has_next ↔ page < pages`, `has_prev ↔ page > 1`, and carries at most `size`
items. -/
theorem get_products_pagination (db : DB) (filters : Option ProductFilter)
    (page size : Nat) (hpage : 1 ≤ page) (hsize : 0 < size) :
    (get_products db filters page size).total = (filteredProducts db filters).length ∧
    (get_products db filters page size).pages =
      (get_products db filters page size).total ⌈/⌉ size ∧
    ((get_products db filters page size).has_next = true ↔
      page < (get_products db filters page size).pages) ∧
    ((get_products db filters page size).has_prev = true ↔ 1 < page) ∧
    (get_products db filters page size).items.length ≤ size := by
  refine ⟨rfl, ?_, ?_, ?_, ?_⟩
  · simp only [get_products, if_pos hsize, Nat.ceilDiv_eq_add_pred_div]
  · simp [get_products]
  · simp [get_products]
  · simp only [get_products, List.length_take]
    exact Nat.min_le_left _ _

/-- Catalog of 25 products for the pagination instance of the spec. -/
def pageDemoDb : DB :=
  { products := (List.range 25).map (fun i =>
      { id := i, name := "kit", price := 100, created_at := (i : Int) }),
    cart := [], orders := [], order_items := [], next_id := 100 }

/-- Closed instance of `get_products_pagination`: page 2 of size 10 over 25
products returns 10 items, pages 3, has_next and has_prev true. -/
theorem get_products_pagination_witness :
    (1 ≤ 2 ∧ 0 < 10) ∧
    (get_products pageDemoDb none 2 10).items.length ≤ 10 ∧
    ((get_products pageDemoDb none 2 10).total = 25 ∧
     (get_products pageDemoDb none 2 10).pages = 3 ∧
     (get_products pageDemoDb none 2 10).has_next = true ∧
     (get_products pageDemoDb none 2 10).has_prev = true ∧
     (get_products pageDemoDb none 2 10).items.length = 10) :=
  ⟨by decide,
   (get_products_pagination pageDemoDb none 2 10 (by decide) (by decide)).2.2.2.2,
   by decide⟩

/-- The cart row inserted by `add_to_cart` when no line exists yet. -/
def insertedLine (db : DB) (now : Int) (uid pid : Uuid) (q : Nat) : CartRow :=
  { id := db.next_id, user_id := uid, product_id := pid, quantity := q,
    created_at := now, updated_at := now }

/-- The cart row after the incrementing branch of a second `add_to_cart`. -/
def bumpedLine (db : DB) (now₁ now₂ : Int) (uid pid : Uuid) (q₁ q₂ : Nat) : CartRow :=
  { id := db.next_id, user_id := uid, product_id := pid, quantity := q₁ + q₂,
    created_at := now₁, updated_at := now₂ }

/-- C6: starting from a state with no cart line for (user, product) and an
existing product, adding quantity `q₁` and then `q₂` leaves exactly one cart
line for the pair, holding quantity `q₁ + q₂` (a single add inserts one line
with the given quantity); adding a product that does not exist fails with 404
and returns the state unchanged.  The freshness hypothesis models the
collision-freeness of `uuid4` row ids. -/
theorem add_to_cart_spec (db : DB) (now₁ now₂ : Int) (uid pid : Uuid) (q₁ q₂ : Nat)
    (hnoline : ∀ c ∈ db.cart, ¬(c.user_id = uid ∧ c.product_id = pid))
    (hfresh : ∀ c ∈ db.cart, c.id ≠ db.next_id) :
    ((findProduct db pid).isSome →
      (∃ r₁, (add_to_cart db now₁ uid { product_id := pid, quantity := q₁ }).2 = .ok r₁ ∧
          r₁.quantity = q₁) ∧
      ((userCartRows (add_to_cart db now₁ uid { product_id := pid, quantity := q₁ }).1
            uid).filter (fun c => c.product_id == pid)).map CartRow.quantity = [q₁] ∧
      (∃ r₂, (add_to_cart
            (add_to_cart db now₁ uid { product_id := pid, quantity := q₁ }).1
            now₂ uid { product_id := pid, quantity := q₂ }).2 = .ok r₂ ∧
          r₂.quantity = q₁ + q₂) ∧
      ((userCartRows (add_to_cart
            (add_to_cart db now₁ uid { product_id := pid, quantity := q₁ }).1
            now₂ uid { product_id := pid, quantity := q₂ }).1
            uid).filter (fun c => c.product_id == pid)).map CartRow.quantity = [q₁ + q₂]) ∧
    (findProduct db pid = none →
      add_to_cart db now₁ uid { product_id := pid, quantity := q₁ } =
        (db, .error { status_code := 404,
                      detail := "Товар с ID " ++ toString pid ++ " не найден" })) := by
  constructor
  · intro hex
    obtain ⟨p, hp⟩ := Option.isSome_iff_exists.1 hex
    have hfind : db.cart.find? (fun c => c.user_id == uid && c.product_id == pid) = none := by
      rw [List.find?_eq_none]
      intro c hc hpc
      simp only [Bool.and_eq_true, beq_iff_eq] at hpc
      exact hnoline c hc hpc
    have e₁ : add_to_cart db now₁ uid { product_id := pid, quantity := q₁ } =
        ({ db with cart := db.cart ++ [insertedLine db now₁ uid pid q₁],
                   next_id := db.next_id + 1 },
         .ok { id := db.next_id, user_id := uid, product_id := pid, quantity := q₁,
               product_name := some p.name, product_price := some p.price,
               total_price := some (p.price * (q₁ : Int)),
               created_at := now₁, updated_at := now₁ }) := by
      simp only [add_to_cart, hp, hfind, insertedLine]
    have hnil : db.cart.filter (fun c => c.product_id == pid && c.user_id == uid) = [] := by
      rw [List.filter_eq_nil_iff]
      intro c hc hpc
      simp only [Bool.and_eq_true, beq_iff_eq] at hpc
      exact hnoline c hc ⟨hpc.2, hpc.1⟩
    have hp₁ : findProduct
        { db with cart := db.cart ++ [insertedLine db now₁ uid pid q₁],
                  next_id := db.next_id + 1 } pid = some p := hp
    have hfind₂ : (db.cart ++ [insertedLine db now₁ uid pid q₁]).find?
          (fun c => c.user_id == uid && c.product_id == pid) =
        some (insertedLine db now₁ uid pid q₁) := by
      rw [List.find?_append, hfind]
      simp [insertedLine]
    have hmap : (db.cart ++ [insertedLine db now₁ uid pid q₁]).map
          (fun c => if c.id == db.next_id then bumpedLine db now₁ now₂ uid pid q₁ q₂ else c) =
        db.cart ++ [bumpedLine db now₁ now₂ uid pid q₁ q₂] := by
      rw [List.map_append]
      congr 1
      · have h : ∀ c ∈ db.cart,
            (if c.id == db.next_id then bumpedLine db now₁ now₂ uid pid q₁ q₂ else c) = c := by
          intro c hc
          rw [if_neg]
          simp only [beq_iff_eq]
          exact hfresh c hc
        rw [List.map_congr_left h]
        simp
      · simp [insertedLine, bumpedLine]
    refine ⟨?_, ?_, ?_, ?_⟩
    · rw [e₁]
      exact ⟨_, rfl, rfl⟩
    · simp only [e₁]
      simp [userCartRows, hnil, insertedLine]
    · simp only [e₁]
      simp only [add_to_cart, hp₁, hfind₂]
      exact ⟨_, rfl, rfl⟩
    · simp only [e₁]
      simp only [add_to_cart, hp₁, hfind₂]
      show ((userCartRows
          { db with
            cart := (db.cart ++ [insertedLine db now₁ uid pid q₁]).map
                      (fun c => if c.id == db.next_id then
                          bumpedLine db now₁ now₂ uid pid q₁ q₂ else c),
            next_id := db.next_id + 1 } uid).filter
          (fun c => c.product_id == pid)).map CartRow.quantity = [q₁ + q₂]
      rw [hmap]
      simp [userCartRows, hnil, bumpedLine]
  · intro hnone
    simp only [add_to_cart, hnone]

/-- Catalog with one product (id 3) and an empty cart, user 7. -/
def cartDemoDb : DB :=
  { products := [{ id := 3, name := "RX-78-2", price := 2500 }],
    cart := [], orders := [], order_items := [], next_id := 50 }

/-- Closed instance of `add_to_cart_spec`: add 2 then 4 of product 3 for
user 7, ending with one line of quantity 6; adding missing product 99 gives
404 and leaves the state unchanged. -/
theorem add_to_cart_spec_witness :
    (∃ r₁, (add_to_cart cartDemoDb 0 7 { product_id := 3, quantity := 2 }).2 = .ok r₁ ∧
        r₁.quantity = 2) ∧
    ((userCartRows (add_to_cart
          (add_to_cart cartDemoDb 0 7 { product_id := 3, quantity := 2 }).1
          1 7 { product_id := 3, quantity := 4 }).1 7).filter
        (fun c => c.product_id == 3)).map CartRow.quantity = [6] ∧
    add_to_cart cartDemoDb 0 7 { product_id := 99, quantity := 2 } =
      (cartDemoDb, .error { status_code := 404,
                            detail := "Товар с ID " ++ toString 99 ++ " не найден" }) :=
  ⟨((add_to_cart_spec cartDemoDb 0 1 7 3 2 4 (by decide) (by decide)).1 (by decide)).1,
   ((add_to_cart_spec cartDemoDb 0 1 7 3 2 4 (by decide) (by decide)).1 (by decide)).2.2.2,
   (add_to_cart_spec cartDemoDb 0 1 7 99 2 4 (by decide) (by decide)).2 (by decide)⟩

theorem cartAgg_characterisation (db : DB) (ls : List CartRow) :
    (cartAgg db ls).2.1 =
      ((ls.filter (fun c => (findProduct db c.product_id).isSome)).map CartRow.quantity).sum ∧
    (cartAgg db ls).2.2 =
      ((ls.filter (fun c => (findProduct db c.product_id).isSome)).map
        (fun c => catalogPrice db c.product_id * (c.quantity : Int))).sum ∧
    (cartAgg db ls).1.map CartItemResponse.product_id =
      (ls.filter (fun c => (findProduct db c.product_id).isSome)).map CartRow.product_id := by
  induction ls with
  | nil => exact ⟨rfl, rfl, rfl⟩
  | cons c rest ih =>
    obtain ⟨ih1, ih2, ih3⟩ := ih
    cases hf : findProduct db c.product_id with
    | none => simp [cartAgg, hf, ih1, ih2, ih3]
    | some p => simp [cartAgg, hf, ih1, ih2, ih3, catalogPrice]

theorem collectOrderItems_missing (db : DB) (ls : List CartRow) :
    (∃ c ∈ ls, findProduct db c.product_id = none) →
    ∃ e, collectOrderItems db ls = .error e ∧ e.status_code = 404 := by
  induction ls with
  | nil =>
    rintro ⟨c, hc, -⟩
    cases hc
  | cons a rest ih =>
    rintro ⟨c, hc, hcnone⟩
    cases hf : findProduct db a.product_id with
    | none =>
      refine ⟨{ status_code := 404,
                detail := "Товар с ID " ++ toString a.product_id ++ " не найден" }, ?_, rfl⟩
      simp [collectOrderItems, hf]
    | some p =>
      rcases List.mem_cons.1 hc with rfl | hmem
      · rw [hf] at hcnone
        cases hcnone
      · obtain ⟨e, he, hcode⟩ := ih ⟨c, hmem, hcnone⟩
        refine ⟨e, ?_, hcode⟩
        simp [collectOrderItems, hf, he, Bind.bind, Except.bind]

/-- C10: `get_user_cart` never fails: cart lines whose product no longer
exists are silently omitted from the returned items and excluded from the
totals, which are computed only over lines whose products exist; checkout
over the same cart instead fails with a 404 and returns the state
unchanged. -/
theorem get_user_cart_skips_missing (db : DB) (uid : Uuid) (now : Int) (od : OrderCreate) :
    (get_user_cart db uid).total_items =
      (((userCartRows db uid).filter
          (fun c => (findProduct db c.product_id).isSome)).map CartRow.quantity).sum ∧
    (get_user_cart db uid).total_amount =
      (((userCartRows db uid).filter (fun c => (findProduct db c.product_id).isSome)).map
        (fun c => catalogPrice db c.product_id * (c.quantity : Int))).sum ∧
    (get_user_cart db uid).items.map CartItemResponse.product_id =
      ((userCartRows db uid).filter
          (fun c => (findProduct db c.product_id).isSome)).map CartRow.product_id ∧
    ((∃ c ∈ userCartRows db uid, findProduct db c.product_id = none) →
      ∃ e, create_order_from_cart db now uid od = (db, .error e) ∧ e.status_code = 404) := by
  obtain ⟨h1, h2, h3⟩ := cartAgg_characterisation db (userCartRows db uid)
  by_cases hemp : (userCartRows db uid).isEmpty
  · rw [List.isEmpty_iff] at hemp
    refine ⟨?_, ?_, ?_, ?_⟩
    · simp only [get_user_cart, hemp]
      simp
    · simp only [get_user_cart, hemp]
      simp
    · simp only [get_user_cart, hemp]
      simp
    · rintro ⟨c, hc, -⟩
      rw [hemp] at hc
      cases hc
  · refine ⟨?_, ?_, ?_, ?_⟩
    · simpa [get_user_cart, hemp] using h1
    · simpa [get_user_cart, hemp] using h2
    · simpa [get_user_cart, hemp] using h3
    · rintro hex
      obtain ⟨e, he, hcode⟩ := collectOrderItems_missing db (userCartRows db uid) hex
      refine ⟨e, ?_, hcode⟩
      simp only [create_order_from_cart]
      rw [if_neg (by simpa using hemp), he]

/-- Cart of user 7 holding one line of an existing product (id 1, price 100,
quantity 2) and one line of a vanished product (id 99, quantity 5). -/
def ghostDemoDb : DB :=
  { products := [{ id := 1, name := "MG Zaku", price := 100 }],
    cart := [{ id := 31, user_id := 7, product_id := 1, quantity := 2 },
             { id := 32, user_id := 7, product_id := 99, quantity := 5 }],
    orders := [], order_items := [], next_id := 80 }

/-- Checkout request body used by the concrete instances. -/
def demoOrderCreate : OrderCreate := { delivery_address := "Проспект Мира, дом 5" }

/-- Closed instance of `get_user_cart_skips_missing` on `ghostDemoDb`: the
ghost line (product 99) is omitted from items and totals, and checkout on the
same cart fails with 404. -/
theorem get_user_cart_skips_missing_witness :
    ((get_user_cart ghostDemoDb 7).total_items = 2 ∧
     (get_user_cart ghostDemoDb 7).total_amount = 200 ∧
     (get_user_cart ghostDemoDb 7).items.map CartItemResponse.product_id = [1]) ∧
    (∃ e, create_order_from_cart ghostDemoDb 0 7 demoOrderCreate = (ghostDemoDb, .error e) ∧
        e.status_code = 404) := by
  refine ⟨⟨by decide, by decide, by decide⟩, ?_⟩
  exact (get_user_cart_skips_missing ghostDemoDb 7 0 demoOrderCreate).2.2.2
    ⟨{ id := 32, user_id := 7, product_id := 99, quantity := 5 }, by decide, by decide⟩

/-- C3: checkout is atomic: on an empty cart it fails with the 400 client
error and returns the state unchanged (so no order is created); when any cart
line references a missing product the whole operation aborts with a 404 and
the returned state is the input state — no order created, no order line
created, no cart line deleted. -/
theorem create_order_from_cart_atomic (db : DB) (now : Int) (uid : Uuid) (od : OrderCreate) :
    (userCartRows db uid = [] →
      create_order_from_cart db now uid od =
        (db, .error { status_code := 400, detail := "Корзина пуста" })) ∧
    ((∃ c ∈ userCartRows db uid, findProduct db c.product_id = none) →
      ∃ e, create_order_from_cart db now uid od = (db, .error e) ∧ e.status_code = 404) := by
  constructor
  · intro h
    simp [create_order_from_cart, h]
  · rintro hex
    obtain ⟨c, hc, hcnone⟩ := hex
    have hne : ¬((userCartRows db uid).isEmpty = true) := by
      rw [List.isEmpty_iff]
      intro hemp
      rw [hemp] at hc
      cases hc
    obtain ⟨e, he, hcode⟩ :=
      collectOrderItems_missing db (userCartRows db uid) ⟨c, hc, hcnone⟩
    refine ⟨e, ?_, hcode⟩
    simp only [create_order_from_cart]
    rw [if_neg hne, he]

/-- Empty cart of user 7. -/
def emptyCartDemoDb : DB :=
  { products := [], cart := [], orders := [], order_items := [], next_id := 10 }

/-- Closed instance of `create_order_from_cart_atomic` on the empty cart and
on the cart with a vanished product. -/
theorem create_order_from_cart_atomic_witness :
    create_order_from_cart emptyCartDemoDb 0 7 demoOrderCreate =
      (emptyCartDemoDb, .error { status_code := 400, detail := "Корзина пуста" }) ∧
    (∃ e, create_order_from_cart ghostDemoDb 0 7 demoOrderCreate = (ghostDemoDb, .error e) ∧
        e.status_code = 404) :=
  ⟨(create_order_from_cart_atomic emptyCartDemoDb 0 7 demoOrderCreate).1 (by decide),
   (create_order_from_cart_atomic ghostDemoDb 0 7 demoOrderCreate).2
     ⟨{ id := 32, user_id := 7, product_id := 99, quantity := 5 }, by decide, by decide⟩⟩

